import Mathlib

/-!
Shallow embedding of the automobile-sales dashboard
(src/KCA_DV0101EN-Final-Assign-Part-2-Questions.py).

Modelling decisions:
- A pandas row becomes `SalesRecord`; numeric columns are embedded as `ℚ`
  so that sums, means and the division by 12 are exact.
- A DataFrame becomes a `List SalesRecord` in row order; `df_rec` is derived
  by `mkDfRec` exactly as the source does (`df[df["Recession"] == 1]`).
- `pandas.groupby(...).agg()` with the default `sort=True` sorts the distinct
  group keys ascending and applies the aggregate to each group; this is
  `groupAgg` below.
- `Series.map(dict)` substitutes a missing value (NaN) for keys absent from
  the dict; it is embedded as the `Option`-valued function
  `vehicle_type_names` applied pointwise, `none` standing for NaN.
- Python dict subscripting `d[k]` (used in the trace renaming of the fourth
  recession chart) raises `KeyError` on a missing key; it is embedded as
  `dictGet`, returning `Except`.
- A plotly figure becomes `ChartSpec`: the kind, the title, and the plotted
  data (`points` for one-dimensional label/value charts, `points2` for the
  grouped bar chart keyed by series name and x value).
-/

inductive ChartKind where
  | line
  | bar
  | pie
deriving DecidableEq, Repr

structure ChartSpec where
  kind : ChartKind
  title : String
  points : List (Option String × ℚ)
  points2 : List (String × ℚ × ℚ)
deriving DecidableEq, Repr

structure SalesRecord where
  year : Int
  month : String
  vehicleType : String
  automobileSales : ℚ
  advertisingExpenditure : ℚ
  unemploymentRate : ℚ
  recession : Nat
deriving DecidableEq, Repr

/-- `df_rec = df[df["Recession"] == 1]` (source line 13). -/
def mkDfRec (df : List SalesRecord) : List SalesRecord :=
  df.filter (fun r => r.recession == 1)

/-- The display-name dictionary `vehicle_type_names` (source lines 16-22),
as the partial lookup it is: `none` models a missing key. -/
def vehicle_type_names (k : String) : Option String :=
  if k = "Supperminicar" then some "Super Mini Car"
  else if k = "Mediumfamilycar" then some "Medium Family Car"
  else if k = "Smallfamiliycar" then some "Small Family Car"
  else if k = "Sports" then some "Sports Car"
  else if k = "Executivecar" then some "Executive Car"
  else none

/-- Python dict subscripting: raises `KeyError` on a missing key. -/
def dictGet (d : String → Option String) (k : String) : Except String String :=
  match d k with
  | some v => Except.ok v
  | none => Except.error ("KeyError: " ++ k)

def sumQ (l : List ℚ) : ℚ :=
  l.foldr (fun a b => a + b) 0

def meanQ (l : List ℚ) : ℚ :=
  sumQ l / (l.length : ℚ)

/-- `pandas.groupby(key)[val].agg` with default ascending key sort:
distinct keys of `rows`, sorted by `lt`, each paired with the aggregate of
the values of its group. -/
def groupAgg {α : Type} [DecidableEq α] (lt : α → α → Prop) [DecidableRel lt]
    (key : SalesRecord → α) (val : SalesRecord → ℚ) (agg : List ℚ → ℚ)
    (rows : List SalesRecord) : List (α × ℚ) :=
  (List.insertionSort lt (rows.map key).dedup).map
    (fun k => (k, agg ((rows.filter (fun r => decide (key r = k))).map val)))

@[reducible] def intLt (a b : Int) : Prop := a < b

/-- Codepoint-wise lexicographic comparison of character lists: the order
Python uses on strings, hence the order pandas sorts string group keys by. -/
def charsLtb : List Char → List Char → Bool
  | [], [] => false
  | [], _ :: _ => true
  | _ :: _, [] => false
  | a :: s, b :: t =>
    if a.toNat < b.toNat then true
    else if b.toNat < a.toNat then false
    else charsLtb s t

@[reducible] def strLt (a b : String) : Prop := charsLtb a.data b.data = true

/-- Lexicographic order on the (Vehicle_Type, unemployment_rate) group key. -/
@[reducible] def pairLt (a b : String × ℚ) : Prop :=
  strLt a.1 b.1 ∨ (a.1 = b.1 ∧ a.2 < b.2)

instance : DecidableRel intLt := fun _a _b => inferInstance

instance : DecidableRel strLt := fun _a _b => inferInstance

instance : DecidableRel pairLt := fun _a _b => inferInstance

/-- Sequencing of a fallible map over a list, failing on the first error:
the embedding of the `for_each_trace` renaming loop. -/
def exceptMapList {α β : Type} (f : α → Except String β) :
    List α → Except String (List β)
  | [] => Except.ok []
  | a :: l =>
    match f a with
    | Except.error e => Except.error e
    | Except.ok b =>
      match exceptMapList f l with
      | Except.error e => Except.error e
      | Except.ok l2 => Except.ok (b :: l2)

/-- Recession chart 1 (source lines 138-145): mean Automobile_Sales grouped
by Year over `df_rec`, drawn as a line. -/
def rec_fig_line (df_rec : List SalesRecord) : ChartSpec :=
  { kind := ChartKind.line,
    title := "Average Automobile Sales by Year during Recession Periods",
    points := (groupAgg intLt (fun r => r.year) (fun r => r.automobileSales)
        meanQ df_rec).map (fun kv => (some (toString kv.1), kv.2)),
    points2 := [] }

/-- Recession chart 2 (source lines 148-162): mean Automobile_Sales grouped
by Vehicle_Type over `df_rec`, labels display-name mapped via `Series.map`
(missing keys become `none`), drawn as a bar chart. -/
def rec_fig_bar_1 (df_rec : List SalesRecord) : ChartSpec :=
  { kind := ChartKind.bar,
    title := "Average Automobile Sales by Vehicle Type during Recession Periods",
    points := (groupAgg strLt (fun r => r.vehicleType)
        (fun r => r.automobileSales) meanQ df_rec).map
        (fun kv => (vehicle_type_names kv.1, kv.2)),
    points2 := [] }

/-- Recession chart 3 (source lines 165-178): sum of Advertising_Expenditure
grouped by Vehicle_Type over `df_rec`, labels display-name mapped, pie. -/
def rec_fig_pie (df_rec : List SalesRecord) : ChartSpec :=
  { kind := ChartKind.pie,
    title := "Total Advertising Expenditure by Vehicle Type during Recession Periods",
    points := (groupAgg strLt (fun r => r.vehicleType)
        (fun r => r.advertisingExpenditure) sumQ df_rec).map
        (fun kv => (vehicle_type_names kv.1, kv.2)),
    points2 := [] }

/-- Recession chart 4 (source lines 181-203): sum of Automobile_Sales grouped
by (Vehicle_Type, unemployment_rate); the `for_each_trace` renaming looks the
raw Vehicle_Type up by dict subscripting, so an unmapped type raises. -/
def mkRecBar2 (pts : List (String × ℚ × ℚ)) : ChartSpec :=
  { kind := ChartKind.bar,
    title := "Automobile Sales by Vehicle Type Per Unemployment Rate during Recession Periods",
    points := [],
    points2 := pts }

/-- One grouped-bar entry after the trace renaming: the raw Vehicle_Type of
the group key is looked up by dict subscripting and so can fail. -/
def renameEntry (kv : (String × ℚ) × ℚ) : Except String (String × ℚ × ℚ) :=
  match dictGet vehicle_type_names kv.1.1 with
  | Except.error e => Except.error e
  | Except.ok name => Except.ok (name, kv.1.2, kv.2)

def rec_fig_bar_2 (df_rec : List SalesRecord) : Except String ChartSpec :=
  match exceptMapList renameEntry
      (groupAgg pairLt (fun r => (r.vehicleType, r.unemploymentRate))
        (fun r => r.automobileSales) sumQ df_rec) with
  | Except.error e => Except.error e
  | Except.ok pts => Except.ok (mkRecBar2 pts)

/-- `recession_graphs` (source lines 136-205): the four recession charts;
fails when the fourth chart's trace renaming hits an unmapped Vehicle_Type. -/
def recession_graphs (df_rec : List SalesRecord) :
    Except String (List ChartSpec) :=
  match rec_fig_bar_2 df_rec with
  | Except.error e => Except.error e
  | Except.ok fig4 => Except.ok
      [rec_fig_line df_rec, rec_fig_bar_1 df_rec, rec_fig_pie df_rec, fig4]

/-- Yearly chart 1 (source lines 213-220): mean Automobile_Sales grouped by
Year over the ENTIRE dataset `df`; the selected year is not used. -/
def year_fig_line (df : List SalesRecord) : ChartSpec :=
  { kind := ChartKind.line,
    title := "Yearly Average Automobile Sales",
    points := (groupAgg intLt (fun r => r.year) (fun r => r.automobileSales)
        meanQ df).map (fun kv => (some (toString kv.1), kv.2)),
    points2 := [] }

/-- Yearly chart 2 (source lines 223-230): `px.line(df_year, x="Month",
y="Automobile_Sales")` — the year-filtered rows are plotted as they stand,
one point per ROW, with no grouping by Month. -/
def year_fig_line_2 (entered_year : Int) (df_year : List SalesRecord) :
    ChartSpec :=
  { kind := ChartKind.line,
    title := "Total Automobile Sales per Month in " ++ toString entered_year,
    points := df_year.map (fun r => (some r.month, r.automobileSales)),
    points2 := [] }

/-- Yearly chart 3 (source lines 233-250): sum of Automobile_Sales grouped by
Vehicle_Type over the year's rows, divided by 12, labels display-name mapped
via `Series.map` (missing keys become `none`), bar. -/
def year_fig_bar (entered_year : Int) (df_year : List SalesRecord) :
    ChartSpec :=
  { kind := ChartKind.bar,
    title := "Average Monthly Automobile Sales by Vehicle Type in "
      ++ toString entered_year,
    points := (groupAgg strLt (fun r => r.vehicleType)
        (fun r => r.automobileSales) sumQ df_year).map
        (fun kv => (vehicle_type_names kv.1, kv.2 / 12)),
    points2 := [] }

/-- Yearly chart 4 (source lines 253-266): sum of Advertising_Expenditure
grouped by Vehicle_Type over the year's rows, labels display-name mapped,
pie. -/
def year_fig_pie (entered_year : Int) (df_year : List SalesRecord) :
    ChartSpec :=
  { kind := ChartKind.pie,
    title := "Total Advertising Expenditure by Vehicle Type in "
      ++ toString entered_year,
    points := (groupAgg strLt (fun r => r.vehicleType)
        (fun r => r.advertisingExpenditure) sumQ df_year).map
        (fun kv => (vehicle_type_names kv.1, kv.2)),
    points2 := [] }

/-- `year_graphs` (source lines 208-268): filter the dataset to the entered
year and build the four yearly charts. -/
def year_graphs (df : List SalesRecord) (entered_year : Int) :
    List ChartSpec :=
  [year_fig_line df,
   year_fig_line_2 entered_year (df.filter (fun r => r.year == entered_year)),
   year_fig_bar entered_year (df.filter (fun r => r.year == entered_year)),
   year_fig_pie entered_year (df.filter (fun r => r.year == entered_year))]

/-- `disable_year` (source lines 110-115). A Dash dropdown value may be null,
hence `Option String`. -/
def disable_year (report_value : Option String) : Bool :=
  if report_value = some "Recession" then true else false

/-- `display_graphs` (source lines 129-133): dispatches to the recession
pipeline exactly when the report value equals "Recession", otherwise to the
yearly pipeline with the entered year. -/
def display_graphs (df df_rec : List SalesRecord) (report_value : Option String)
    (entered_year : Int) : Except String (List ChartSpec) :=
  if report_value = some "Recession" then recession_graphs df_rec
  else Except.ok (year_graphs df entered_year)

/-- The process-wide state after load: the dataset and its recession subset.
Every pandas operation the callbacks use (column selection, boolean-mask
filtering, groupby, `Series.map`) returns a fresh frame, and the only column
assignments in the source target those fresh local frames, so the callbacks
are embedded as state-passing functions that return the state they were
given. -/
structure AppState where
  df : List SalesRecord
  df_rec : List SalesRecord
deriving DecidableEq, Repr

def loadState (df : List SalesRecord) : AppState :=
  { df := df, df_rec := mkDfRec df }

def displayGraphsApp (s : AppState) (report_value : Option String)
    (entered_year : Int) : Except String (List ChartSpec) × AppState :=
  (display_graphs s.df s.df_rec report_value entered_year, s)

/-- The two-row fixture of spec section 8: one recession row and one
non-recession row, both of Vehicle_Type "Sports" in year 2005. -/
def fixtureC4 : List SalesRecord :=
  [{ year := 2005, month := "Jan", vehicleType := "Sports",
     automobileSales := 100, advertisingExpenditure := 10,
     unemploymentRate := 5, recession := 1 },
   { year := 2005, month := "Feb", vehicleType := "Sports",
     automobileSales := 200, advertisingExpenditure := 20,
     unemploymentRate := 6, recession := 0 }]

/-- A year-2005 fixture with two rows in the same month: exposes that the
second yearly chart plots rows, not per-month sums. -/
def fixtureC3 : List SalesRecord :=
  [{ year := 2005, month := "Jan", vehicleType := "Sports",
     automobileSales := 100, advertisingExpenditure := 10,
     unemploymentRate := 5, recession := 1 },
   { year := 2005, month := "Jan", vehicleType := "Executivecar",
     automobileSales := 200, advertisingExpenditure := 20,
     unemploymentRate := 6, recession := 0 }]

/-- A dataset whose only row carries a Vehicle_Type label outside the
display-name dictionary, in a non-recession month. -/
def fixtureC8 : List SalesRecord :=
  [{ year := 2005, month := "Jan", vehicleType := "Hovercar",
     automobileSales := 50, advertisingExpenditure := 5,
     unemploymentRate := 4, recession := 0 }]

/-- A dataset whose only row carries an unmapped Vehicle_Type label in a
RECESSION month. -/
def fixtureC8b : List SalesRecord :=
  [{ year := 2005, month := "Jan", vehicleType := "Hovercar",
     automobileSales := 50, advertisingExpenditure := 5,
     unemploymentRate := 4, recession := 1 }]

lemma mkDfRec_append_non_recession (df extra : List SalesRecord)
    (h : ∀ r ∈ extra, r.recession ≠ 1) :
    mkDfRec (df ++ extra) = mkDfRec df := by
  unfold mkDfRec
  rw [List.filter_append]
  have hnil : extra.filter (fun r => r.recession == 1) = [] := by
    apply List.filter_eq_nil_iff.mpr
    intro a ha
    simpa using h a ha
  rw [hnil, List.append_nil]

lemma groupAgg_key_exists {α : Type} [DecidableEq α] (lt : α → α → Prop)
    [DecidableRel lt] (key : SalesRecord → α) (val : SalesRecord → ℚ)
    (agg : List ℚ → ℚ) (rows : List SalesRecord) :
    ∀ kv ∈ groupAgg lt key val agg rows, ∃ r ∈ rows, key r = kv.1 := by
  intro kv hkv
  unfold groupAgg at hkv
  obtain ⟨k, hk, rfl⟩ := List.mem_map.mp hkv
  have h1 : k ∈ (rows.map key).dedup :=
    ((List.perm_insertionSort lt _).mem_iff).mp hk
  have h2 : k ∈ rows.map key := List.mem_dedup.mp h1
  obtain ⟨r, hr, rfl⟩ := List.mem_map.mp h2
  exact ⟨r, hr, rfl⟩

lemma groupAgg_mem_of_mem {α : Type} [DecidableEq α] (lt : α → α → Prop)
    [DecidableRel lt] (key : SalesRecord → α) (val : SalesRecord → ℚ)
    (agg : List ℚ → ℚ) (rows : List SalesRecord) (r : SalesRecord)
    (hr : r ∈ rows) :
    (key r, agg ((rows.filter (fun x => decide (key x = key r))).map val))
      ∈ groupAgg lt key val agg rows := by
  unfold groupAgg
  apply List.mem_map_of_mem
  rw [(List.perm_insertionSort lt _).mem_iff, List.mem_dedup]
  exact List.mem_map_of_mem key hr

lemma exceptMapList_ok_of_forall {α β : Type} (f : α → Except String β)
    (l : List α) (h : ∀ a ∈ l, ∃ b, f a = Except.ok b) :
    ∃ l2, exceptMapList f l = Except.ok l2 := by
  induction l with
  | nil => exact ⟨[], rfl⟩
  | cons a l ih =>
    obtain ⟨b, hb⟩ := h a (List.mem_cons_self a l)
    obtain ⟨l2, hl2⟩ := ih (fun x hx => h x (List.mem_cons_of_mem a hx))
    exact ⟨b :: l2, by simp [exceptMapList, hb, hl2]⟩

lemma exceptMapList_error_of_exists {α β : Type} (f : α → Except String β)
    (l : List α) (h : ∃ a ∈ l, ∃ e, f a = Except.error e) :
    ∃ e, exceptMapList f l = Except.error e := by
  induction l with
  | nil => simp at h
  | cons a l ih =>
    obtain ⟨x, hx, e, hex⟩ := h
    cases hfa : f a with
    | error e2 => exact ⟨e2, by simp [exceptMapList, hfa]⟩
    | ok b =>
      rcases List.mem_cons.mp hx with rfl | hx2
      · rw [hfa] at hex
        exact absurd hex (by simp)
      · obtain ⟨e3, he3⟩ := ih ⟨x, hx2, e, hex⟩
        exact ⟨e3, by simp [exceptMapList, hfa, he3]⟩

/-- Claim C5: for every report value, `disable_year` returns true exactly
when the value is "Recession"; in particular the Recession selection
disables the year control and the Yearly selection enables it. -/
theorem disable_year_spec :
    (∀ rv : Option String, disable_year rv = true ↔ rv = some "Recession")
    ∧ disable_year (some "Recession") = true
    ∧ disable_year (some "Yearly") = false := by
  refine ⟨fun rv => ?_, by decide, by decide⟩
  by_cases h : rv = some "Recession" <;> simp [disable_year, h]

/-- Claim C6: the first chart of `year_graphs` does not depend on the
selected year: for any two selected years it is the same chart, namely the
mean Automobile_Sales per Year computed over the entire dataset. -/
theorem year_chart1_independent_of_year :
    ∀ (df : List SalesRecord) (y1 y2 : Int),
      (year_graphs df y1).head? = (year_graphs df y2).head?
      ∧ (year_graphs df y1).head? = some (year_fig_line df)
      ∧ (year_fig_line df).points
        = (groupAgg intLt (fun r => r.year) (fun r => r.automobileSales)
            meanQ df).map (fun kv => (some (toString kv.1), kv.2)) := by
  intro df y1 y2
  exact ⟨rfl, rfl, rfl⟩

/-- Claim C7: the dispatched callbacks leave the loaded dataset and its
recession subset exactly as they were: every record of `df` and `df_rec` in
the application state after a call is the record that was there before. -/
theorem display_graphs_no_mutation :
    ∀ (s : AppState) (rv : Option String) (y : Int),
      (displayGraphsApp s rv y).2.df = s.df
      ∧ (displayGraphsApp s rv y).2.df_rec = s.df_rec
      ∧ (displayGraphsApp s rv y).2 = s := by
  intro s rv y
  exact ⟨rfl, rfl, rfl⟩

/-- Claim C9: `display_graphs` chooses the recession pipeline only for the
exact report value "Recession"; every other value (null included) is
dispatched to `year_graphs` with the entered year. -/
theorem display_graphs_dispatch :
    ∀ (df dfr : List SalesRecord) (rv : Option String) (y : Int),
      (rv ≠ some "Recession" →
        display_graphs df dfr rv y = Except.ok (year_graphs df y))
      ∧ display_graphs df dfr (some "Recession") y = recession_graphs dfr := by
  intro df dfr rv y
  constructor
  · intro h
    simp [display_graphs, h]
  · simp [display_graphs]

/-- Witness for C9 at a concrete input: a null report value dispatches to
the yearly pipeline. -/
theorem display_graphs_dispatch_witness :
    display_graphs fixtureC4 (mkDfRec fixtureC4) none 2005
      = Except.ok (year_graphs fixtureC4 2005) :=
  (display_graphs_dispatch fixtureC4 (mkDfRec fixtureC4) none 2005).1
    (by decide)

/-- Claim C3 is false of the code: on a year with two rows in the same
month, the second yearly chart contains one point per row ([100, 200] for
"Jan"), not the per-month sum (300 for "Jan") that its own title ("Total
Automobile Sales per Month in 2005") and the spec describe. -/
theorem year_chart2_plots_rows_not_month_sums :
    ((year_graphs fixtureC3 2005)[1]?).map (fun c => c.points)
      = some [(some "Jan", 100), (some "Jan", 200)]
    ∧ ((year_graphs fixtureC3 2005)[1]?).map (fun c => c.points)
      ≠ some [(some "Jan", 300)] := by
  constructor
  · simp [year_graphs, year_fig_line_2, fixtureC3]
  · simp [year_graphs, year_fig_line_2, fixtureC3]

/-- Claim C4: the first three recession charts are computed from the
recession subset alone — appending rows with Recession != 1 to the dataset
leaves all three unchanged — and on the spec's two-row fixture the
Vehicle_Type bar aggregate for "Sports Car" is mean Automobile_Sales 100,
the non-recession row not counted. -/
theorem recession_charts_from_recession_rows_only :
    (∀ (df extra : List SalesRecord), (∀ r ∈ extra, r.recession ≠ 1) →
      rec_fig_line (mkDfRec (df ++ extra)) = rec_fig_line (mkDfRec df)
      ∧ rec_fig_bar_1 (mkDfRec (df ++ extra)) = rec_fig_bar_1 (mkDfRec df)
      ∧ rec_fig_pie (mkDfRec (df ++ extra)) = rec_fig_pie (mkDfRec df))
    ∧ (rec_fig_bar_1 (mkDfRec fixtureC4)).points
        = [(some "Sports Car", 100)] := by
  constructor
  · intro df extra h
    rw [mkDfRec_append_non_recession df extra h]
    exact ⟨rfl, rfl, rfl⟩
  · simp [rec_fig_bar_1, mkDfRec, fixtureC4, groupAgg, meanQ, sumQ,
      vehicle_type_names, List.insertionSort, List.orderedInsert, List.dedup]

/-- Witness for C4: appending a concrete non-recession row to the fixture
leaves the recession Vehicle_Type bar chart unchanged. -/
theorem recession_charts_from_recession_rows_only_witness :
    rec_fig_bar_1 (mkDfRec (fixtureC4 ++ fixtureC8))
      = rec_fig_bar_1 (mkDfRec fixtureC4) :=
  ((recession_charts_from_recession_rows_only).1 fixtureC4 fixtureC8
    (by decide)).2.1

/-- Claim C2: for any dataset, selected year and Vehicle_Type occurring in
that year's rows, the yearly monthly-average bar chart shows, against that
type's display name, exactly the sum of that year's Automobile_Sales for
that type divided by 12. -/
theorem year_bar_monthly_average_exact :
    ∀ (df : List SalesRecord) (y : Int) (v : String),
      v ∈ (df.filter (fun r => r.year == y)).map (fun r => r.vehicleType) →
      (vehicle_type_names v,
        sumQ (((df.filter (fun r => r.year == y)).filter
          (fun r => decide (r.vehicleType = v))).map
            (fun r => r.automobileSales)) / 12)
        ∈ (year_fig_bar y (df.filter (fun r => r.year == y))).points := by
  intro df y v hv
  obtain ⟨r, hr, rfl⟩ := List.mem_map.mp hv
  have hmem := groupAgg_mem_of_mem strLt (fun x => x.vehicleType)
    (fun x => x.automobileSales) sumQ (df.filter (fun x => x.year == y)) r hr
  have hmap := List.mem_map_of_mem
    (fun kv : String × ℚ => (vehicle_type_names kv.1, kv.2 / 12)) hmem
  simpa [year_fig_bar] using hmap

/-- Witness for C2 on the spec fixture: type "Sports" in year 2005. -/
theorem year_bar_monthly_average_exact_witness :
    (vehicle_type_names "Sports",
      sumQ (((fixtureC4.filter (fun r => r.year == 2005)).filter
        (fun r => decide (r.vehicleType = "Sports"))).map
          (fun r => r.automobileSales)) / 12)
      ∈ (year_fig_bar 2005
          (fixtureC4.filter (fun r => r.year == 2005))).points :=
  year_bar_monthly_average_exact fixtureC4 2005 "Sports" (by decide)

/-- Claim C10: for a year absent from the dataset, `year_graphs` still
returns four charts; charts 2-4 are the charts of the empty filtered subset
and chart 1 is the same full-dataset yearly-mean chart as for any year. -/
theorem year_graphs_absent_year :
    ∀ (df : List SalesRecord) (y : Int), (∀ r ∈ df, r.year ≠ y) →
      year_graphs df y
        = [year_fig_line df, year_fig_line_2 y [], year_fig_bar y [],
           year_fig_pie y []]
      ∧ (year_graphs df y).length = 4
      ∧ ∀ y2 : Int, (year_graphs df y).head? = (year_graphs df y2).head? := by
  intro df y h
  have hfil : df.filter (fun r => r.year == y) = [] := by
    apply List.filter_eq_nil_iff.mpr
    intro a ha
    simpa using h a ha
  unfold year_graphs
  rw [hfil]
  exact ⟨rfl, rfl, fun y2 => rfl⟩

/-- Witness for C10: year 1999 does not occur in the fixture. -/
theorem year_graphs_absent_year_witness :
    (year_graphs fixtureC4 1999).length = 4 :=
  (year_graphs_absent_year fixtureC4 1999 (by decide)).2.1

/-- Claim C1: under the data-model invariant that every Vehicle_Type label
is one of the five mapped keys, both dispatch targets produce exactly four
chart specs: `year_graphs` for every year, and `recession_graphs` on the
recession subset succeeds with a four-element list. -/
theorem aggregators_return_four_charts :
    ∀ df : List SalesRecord,
      (∀ r ∈ df, (vehicle_type_names r.vehicleType).isSome = true) →
      (∀ y : Int, (year_graphs df y).length = 4)
      ∧ ∃ l, recession_graphs (mkDfRec df) = Except.ok l ∧ l.length = 4 := by
  intro df h
  refine ⟨fun y => rfl, ?_⟩
  have hok : ∀ kv ∈ groupAgg pairLt
      (fun x => (x.vehicleType, x.unemploymentRate))
      (fun x => x.automobileSales) sumQ (mkDfRec df),
      ∃ b, renameEntry kv = Except.ok b := by
    intro kv hkv
    obtain ⟨r, hr, hkey⟩ := groupAgg_key_exists _ _ _ _ _ kv hkv
    have hdf : r ∈ df := List.mem_of_mem_filter hr
    obtain ⟨n, hn⟩ := Option.isSome_iff_exists.mp (h r hdf)
    have h11 : kv.1.1 = r.vehicleType := by rw [← hkey]
    exact ⟨(n, kv.1.2, kv.2), by simp [renameEntry, dictGet, h11, hn]⟩
  obtain ⟨l2, hl2⟩ := exceptMapList_ok_of_forall _ _ hok
  refine ⟨[rec_fig_line (mkDfRec df), rec_fig_bar_1 (mkDfRec df),
    rec_fig_pie (mkDfRec df), mkRecBar2 l2], ?_, rfl⟩
  unfold recession_graphs rec_fig_bar_2
  rw [hl2]

/-- Witness for C1 on the spec fixture, yearly side. -/
theorem aggregators_return_four_charts_witness :
    (year_graphs fixtureC4 2005).length = 4 :=
  (aggregators_return_four_charts fixtureC4 (by decide)).1 2005

/-- Counterexample to claim C8 as stated: a dataset holding an unmapped
Vehicle_Type label "Hovercar" for which neither aggregator fails — the
yearly dispatch succeeds, its Vehicle_Type bar chart silently substitutes
the missing display name (`none`, pandas NaN) as a default, and the
recession pipeline succeeds as well. -/
theorem unknown_vehicle_type_no_lookup_failure :
    (∃ r ∈ fixtureC8, vehicle_type_names r.vehicleType = none)
    ∧ display_graphs fixtureC8 (mkDfRec fixtureC8) (some "Yearly") 2005
        = Except.ok (year_graphs fixtureC8 2005)
    ∧ ((year_graphs fixtureC8 2005)[2]?).map (fun c => c.points)
        = some [(none, 50 / 12)]
    ∧ recession_graphs (mkDfRec fixtureC8) = Except.ok
        [rec_fig_line [], rec_fig_bar_1 [], rec_fig_pie [], mkRecBar2 []] := by
  refine ⟨by decide, by simp [display_graphs], ?_, ?_⟩
  · simp [year_graphs, year_fig_bar, fixtureC8, groupAgg, sumQ,
      vehicle_type_names, List.insertionSort, List.orderedInsert, List.dedup]
  · rfl

/-- Claim C8 amended: an unknown Vehicle_Type surfaces as a lookup failure
only in `recession_graphs`, and only when it occurs among recession rows
(the fourth chart's trace renaming subscripts the dict); everywhere else
the display-name mapping goes through `Series.map`, which substitutes a
missing value instead of failing, so `year_graphs` always yields its four
charts. -/
theorem unknown_vehicle_type_amended :
    ∀ df : List SalesRecord,
      ((∃ r ∈ mkDfRec df, vehicle_type_names r.vehicleType = none) →
        ∃ e, recession_graphs (mkDfRec df) = Except.error e)
      ∧ (∀ y : Int, (year_graphs df y).length = 4) := by
  intro df
  refine ⟨?_, fun y => rfl⟩
  rintro ⟨r, hr, hnone⟩
  have herr : ∃ kv ∈ groupAgg pairLt
      (fun x => (x.vehicleType, x.unemploymentRate))
      (fun x => x.automobileSales) sumQ (mkDfRec df),
      ∃ e, renameEntry kv = Except.error e := by
    refine ⟨_, groupAgg_mem_of_mem pairLt
      (fun x => (x.vehicleType, x.unemploymentRate))
      (fun x => x.automobileSales) sumQ (mkDfRec df) r hr, ?_⟩
    exact ⟨"KeyError: " ++ r.vehicleType,
      by simp [renameEntry, dictGet, hnone]⟩
  obtain ⟨e, he⟩ := exceptMapList_error_of_exists _ _ herr
  refine ⟨e, ?_⟩
  unfold recession_graphs rec_fig_bar_2
  rw [he]

/-- Witness for the amended C8: with the unmapped label in a recession row,
`recession_graphs` fails. -/
theorem unknown_vehicle_type_amended_witness :
    ∃ e, recession_graphs (mkDfRec fixtureC8b) = Except.error e :=
  (unknown_vehicle_type_amended fixtureC8b).1 (by decide)
